import Mathlib

/-!
Verification of the VtIo mode-selection and activation core
(`src/host/VtIo.cpp`): `ParseIoMode`, `Initialize`, `IsUsingVt`,
`StartIfNeeded`.

The C++ code is shallowly embedded as pure Lean functions.  Effects on the
operating system (pipe opens, handle closes, renderer registration, thread
start) are made explicit:

* the outcome of each external call (`CreateFileW`, constructor throws,
  `AddRenderEngine` throws) is an input, packaged in an environment record;
* each run returns the `HRESULT`, the post state of the `VtIo` object, and a
  trace of handle/side-effect events, where a RAII release performed by a
  `wil::unique_hfile` local going out of scope is recorded as a
  `Event.closed` entry.

`HRESULT` is modelled as `Int` (the signed 32-bit value); an `HRESULT`
denotes success iff it is non-negative.
-/

/-- `HRESULT` success constant `S_OK` (0). -/
def S_OK : Int := 0

/-- `HRESULT` alternate success constant `S_FALSE` (1). -/
def S_FALSE : Int := 1

/-- `HRESULT` failure constant `E_INVALIDARG` (0x80070057 as signed 32-bit). -/
def E_INVALIDARG : Int := 0x80070057 - 0x100000000

/-- `HRESULT` failure constant `E_FAIL` (0x80004005 as signed 32-bit). -/
def E_FAIL : Int := 0x80004005 - 0x100000000

/-- The `SUCCEEDED` macro: an `HRESULT` is a success iff non-negative. -/
def HR_SUCCEEDED (hr : Int) : Prop := 0 ≤ hr

/-- The `FAILED` macro: an `HRESULT` is a failure iff negative. -/
def HR_FAILED (hr : Int) : Prop := hr < 0

instance (hr : Int) : Decidable (HR_SUCCEEDED hr) := by
  unfold HR_SUCCEEDED; infer_instance

instance (hr : Int) : Decidable (HR_FAILED hr) := by
  unfold HR_FAILED; infer_instance

/-- The `HRESULT_FROM_WIN32` macro: a nonzero Win32 error code `e` becomes
`0x80070000 | (e & 0xFFFF)`, which is negative as a signed 32-bit value;
error code 0 maps to `S_OK`.  Used by `RETURN_LAST_ERROR_IF`. -/
def hresultFromWin32 (e : Nat) : Int :=
  if e = 0 then 0 else (0x80070000 + (e % 0x10000) : Int) - 0x100000000

/-- `VtIoMode` enumeration from `VtIoModes.hpp`. -/
inductive VtIoMode where
  | INVALID
  | XTERM_256
  | XTERM
  | WIN_TELNET
deriving DecidableEq, Repr

/-- Modelled from the spec: the token constant `XTERM_256_STRING` is declared
in `VtIoModes.hpp`, which is not part of the visible source; the spec's
dialect table gives its value as "xterm-256color". -/
def XTERM_256_STRING : String := "xterm-256color"

/-- Modelled from the spec: the token constant `XTERM_STRING` is declared in
`VtIoModes.hpp`, which is not part of the visible source; the spec's dialect
table gives its value as "xterm". -/
def XTERM_STRING : String := "xterm"

/-- Modelled from the spec: the token constant `WIN_TELNET_STRING` is declared
in `VtIoModes.hpp`, which is not part of the visible source; the spec's
dialect table gives its value as "win-telnet". -/
def WIN_TELNET_STRING : String := "win-telnet"

/-- Modelled from the spec: the token constant `DEFAULT_STRING` is declared in
`VtIoModes.hpp`, which is not part of the visible source; the spec states that
the empty string is the default token, mapping to Xterm256. -/
def DEFAULT_STRING : String := ""

/-- `VtIo::ParseIoMode(VtMode, ioMode)`.  The C++ writes through an out
parameter; the model returns the pair (returned `HRESULT`, final value of the
out parameter).  The out parameter is unconditionally set to
`VtIoMode::INVALID` before matching, so on the no-match branch it holds
`INVALID`. -/
def ParseIoMode (VtMode : String) : Int × VtIoMode :=
  let ioMode := VtIoMode.INVALID
  if VtMode = XTERM_256_STRING then (S_OK, VtIoMode.XTERM_256)
  else if VtMode = XTERM_STRING then (S_OK, VtIoMode.XTERM)
  else if VtMode = WIN_TELNET_STRING then (S_OK, VtIoMode.WIN_TELNET)
  else if VtMode = DEFAULT_STRING then (S_OK, VtIoMode.XTERM_256)
  else (E_INVALIDARG, ioMode)

/-- One of the three render-engine variants, holding the resources its C++
constructor receives: the output pipe handle, and for the XTERM and WIN_TELNET
variants also the console color table and its size (truncated to `WORD`). -/
inductive VtEngine where
  | xterm256 (hOut : Nat)
  | xterm (hOut : Nat) (colorTable : List Nat) (cSize : Nat)
  | winTelnet (hOut : Nat) (colorTable : List Nat) (cSize : Nat)
deriving DecidableEq, Repr

/-- The `VtInputThread` object: it owns the input pipe handle from
construction onward, and records whether `Start()` has been invoked. -/
structure VtInputThread where
  hInput : Nat
  started : Bool
deriving DecidableEq, Repr

/-- The fields of the `VtIo` object: `_usingVt`, `_IoMode`,
`_pVtInputThread`, `_pVtRenderEngine` (the two `unique_ptr` members are
`none` when null). -/
structure VtIoState where
  usingVt : Bool
  ioMode : VtIoMode
  pVtInputThread : Option VtInputThread
  pVtRenderEngine : Option VtEngine
deriving DecidableEq, Repr

/-- The `VtIo` constructor: only `_usingVt` is initialized (to `false`);
`_IoMode` is left indeterminate, so the model takes it as a parameter `m0`;
the `unique_ptr` members default to null. -/
def VtIoState.new (m0 : VtIoMode) : VtIoState :=
  { usingVt := false, ioMode := m0, pVtInputThread := none, pVtRenderEngine := none }

/-- `VtIo::IsUsingVt()`. -/
def VtIoState.IsUsingVt (st : VtIoState) : Bool :=
  st.usingVt

/-- Outcome of one `CreateFileW` call: either an opened handle, or failure
(`INVALID_HANDLE_VALUE` returned) with the `GetLastError` code. -/
inductive OpenOutcome where
  | ok (h : Nat)
  | fail (winErr : Nat)
deriving DecidableEq, Repr

/-- Failure-injection environment for one `Initialize` call: outcomes of the
input-pipe and output-pipe `CreateFileW` calls, whether the `VtInputThread`
construction throws (with the `HRESULT` that `CATCH_RETURN` produces),
whether the render-engine construction would throw if invoked, and the
console color table data read from `gci`. -/
structure Env where
  openIn : OpenOutcome
  openOut : OpenOutcome
  threadCtorThrows : Option Int
  engineCtorThrows : Option Int
  colorTable : List Nat
  colorTableSize : Nat
deriving DecidableEq, Repr

/-- Well-formedness of the environment: a failed `CreateFileW` leaves a
nonzero `GetLastError` code, and an `HRESULT` produced by `CATCH_RETURN`
from a thrown exception is a failure code. -/
def Env.WF (env : Env) : Prop :=
  (match env.openIn with | OpenOutcome.fail e => e ≠ 0 | OpenOutcome.ok _ => True) ∧
  (match env.openOut with | OpenOutcome.fail e => e ≠ 0 | OpenOutcome.ok _ => True) ∧
  (match env.threadCtorThrows with | some hr => hr < 0 | none => True) ∧
  (match env.engineCtorThrows with | some hr => hr < 0 | none => True)

instance (env : Env) : Decidable env.WF := by
  obtain ⟨oIn, oOut, tT, eT, ct, cs⟩ := env
  unfold Env.WF
  cases oIn <;> cases oOut <;> cases tT <;> cases eT <;> dsimp only <;> infer_instance

/-- Handle events observable during a run of `Initialize`: the input pipe
open, the output pipe open, and each handle close (whether performed by RAII
of a `wil::unique_hfile` local at scope exit or by destruction of a
partially constructed object). -/
inductive Event where
  | openedIn (h : Nat)
  | openedOut (h : Nat)
  | closed (h : Nat)
deriving DecidableEq, Repr

/-- Handles opened during a trace. -/
def opensOf : List Event → List Nat
  | [] => []
  | Event.openedIn h :: tr => h :: opensOf tr
  | Event.openedOut h :: tr => h :: opensOf tr
  | Event.closed _ :: tr => opensOf tr

/-- Handles closed during a trace. -/
def closesOf : List Event → List Nat
  | [] => []
  | Event.closed h :: tr => h :: closesOf tr
  | _ :: tr => closesOf tr

/-- `VtIo::Initialize(InPipeName, OutPipeName, VtMode)`, embedded line by
line.  Steps, in source order:
1. `ParseIoMode(VtMode, _IoMode)` — the member `_IoMode` is written
   unconditionally; `RETURN_IF_FAILED` propagates `E_INVALIDARG`.
2. `CreateFileW` on the input pipe into the local `_hInputFile`;
   `RETURN_LAST_ERROR_IF` on `INVALID_HANDLE_VALUE` (nothing was opened).
3. `CreateFileW` on the output pipe into the local `_hOutputFile`; on
   failure the local `_hInputFile` closes the input handle at scope exit.
4. `_pVtInputThread = make_unique<VtInputThread>(move(_hInputFile))`; if
   this throws, the input handle (owned by the moved-to parameter or still
   by the local) and the output handle (still in its local) are both closed.
5. The `switch (_IoMode)` constructs the engine from the moved output
   handle; if the engine constructor throws, or on the defensive `default:
   return E_FAIL` branch, the local `_hOutputFile` closes the output handle
   at scope exit, while the already-assigned member `_pVtInputThread` keeps
   the input handle open.
6. On success `_usingVt = true` and `S_OK`.
The two pipe names do not influence the model beyond selecting the injected
open outcomes, so they are unused parameters kept for interface fidelity. -/
def VtIoState.InitializeVt (st : VtIoState) (env : Env)
    (_InPipeName _OutPipeName VtMode : String) : Int × VtIoState × List Event :=
  let pr := ParseIoMode VtMode
  let st1 : VtIoState := { st with ioMode := pr.2 }
  if pr.1 < 0 then
    (pr.1, st1, [])
  else
    match env.openIn with
    | OpenOutcome.fail e => (hresultFromWin32 e, st1, [])
    | OpenOutcome.ok hIn =>
      match env.openOut with
      | OpenOutcome.fail e =>
          (hresultFromWin32 e, st1, [Event.openedIn hIn, Event.closed hIn])
      | OpenOutcome.ok hOut =>
        match env.threadCtorThrows with
        | some hr =>
            (hr, st1,
             [Event.openedIn hIn, Event.openedOut hOut,
              Event.closed hOut, Event.closed hIn])
        | none =>
          let st2 : VtIoState :=
            { st1 with pVtInputThread := some { hInput := hIn, started := false } }
          match pr.2 with
          | VtIoMode.XTERM_256 =>
            match env.engineCtorThrows with
            | some hr =>
                (hr, st2,
                 [Event.openedIn hIn, Event.openedOut hOut, Event.closed hOut])
            | none =>
                (S_OK,
                 { st2 with
                     pVtRenderEngine := some (VtEngine.xterm256 hOut),
                     usingVt := true },
                 [Event.openedIn hIn, Event.openedOut hOut])
          | VtIoMode.XTERM =>
            match env.engineCtorThrows with
            | some hr =>
                (hr, st2,
                 [Event.openedIn hIn, Event.openedOut hOut, Event.closed hOut])
            | none =>
                (S_OK,
                 { st2 with
                     pVtRenderEngine :=
                       some (VtEngine.xterm hOut env.colorTable
                              (env.colorTableSize % 0x10000)),
                     usingVt := true },
                 [Event.openedIn hIn, Event.openedOut hOut])
          | VtIoMode.WIN_TELNET =>
            match env.engineCtorThrows with
            | some hr =>
                (hr, st2,
                 [Event.openedIn hIn, Event.openedOut hOut, Event.closed hOut])
            | none =>
                (S_OK,
                 { st2 with
                     pVtRenderEngine :=
                       some (VtEngine.winTelnet hOut env.colorTable
                              (env.colorTableSize % 0x10000)),
                     usingVt := true },
                 [Event.openedIn hIn, Event.openedOut hOut])
          | VtIoMode.INVALID =>
              (E_FAIL, st2,
               [Event.openedIn hIn, Event.openedOut hOut, Event.closed hOut])

/-- Side-effect events observable during `StartIfNeeded`: the engine being
registered with the renderer, and the input decoder thread being started. -/
inductive StartEvent where
  | registeredEngine (e : Option VtEngine)
  | startedThread
deriving DecidableEq, Repr

/-- Failure-injection environment for `StartIfNeeded`: whether
`Renderer::AddRenderEngine` throws, with the `HRESULT` produced by
`CATCH_RETURN`. -/
structure RenderEnv where
  addEngineThrows : Option Int
deriving DecidableEq, Repr

/-- `VtIo::StartIfNeeded()`, embedded line by line: if `!IsUsingVt()` return
`S_FALSE` with no side effects; else register `_pVtRenderEngine` with the
renderer (a throw is converted by `CATCH_RETURN` and `Start` is never
reached), then `_pVtInputThread->Start()`, then `S_OK`.  `_usingVt` is never
written. -/
def VtIoState.StartIfNeeded (st : VtIoState) (renv : RenderEnv) :
    Int × VtIoState × List StartEvent :=
  if !st.IsUsingVt then
    (S_FALSE, st, [])
  else
    match renv.addEngineThrows with
    | some hr => (hr, st, [])
    | none =>
        (S_OK,
         { st with
             pVtInputThread :=
               st.pVtInputThread.map (fun t => { t with started := true }) },
         [StartEvent.registeredEngine st.pVtRenderEngine,
          StartEvent.startedThread])

/-! ### Helper lemmas about `ParseIoMode` and `HRESULT` values -/

theorem parse_cases (s : String) :
    ParseIoMode s = (S_OK, VtIoMode.XTERM_256) ∨
    ParseIoMode s = (S_OK, VtIoMode.XTERM) ∨
    ParseIoMode s = (S_OK, VtIoMode.WIN_TELNET) ∨
    ParseIoMode s = (E_INVALIDARG, VtIoMode.INVALID) := by
  unfold ParseIoMode
  split_ifs <;> simp

theorem e_invalidarg_neg : E_INVALIDARG < 0 := by decide

theorem e_fail_neg : E_FAIL < 0 := by decide

theorem hresultFromWin32_neg {e : Nat} (he : e ≠ 0) : hresultFromWin32 e < 0 := by
  unfold hresultFromWin32
  rw [if_neg he]
  omega

theorem parse_fail_eq {s : String} (h : (ParseIoMode s).1 < 0) :
    ParseIoMode s = (E_INVALIDARG, VtIoMode.INVALID) := by
  obtain h1 | h1 | h1 | h1 := parse_cases s
  · rw [h1] at h; exact absurd h (by decide)
  · rw [h1] at h; exact absurd h (by decide)
  · rw [h1] at h; exact absurd h (by decide)
  · exact h1

theorem parse_ok_mode {s : String} (h : 0 ≤ (ParseIoMode s).1) :
    (ParseIoMode s).2 = VtIoMode.XTERM_256 ∨ (ParseIoMode s).2 = VtIoMode.XTERM ∨
    (ParseIoMode s).2 = VtIoMode.WIN_TELNET := by
  obtain h1 | h1 | h1 | h1 := parse_cases s
  · exact Or.inl (by rw [h1])
  · exact Or.inr (Or.inl (by rw [h1]))
  · exact Or.inr (Or.inr (by rw [h1]))
  · rw [h1] at h; exact absurd h (by decide)

/-! ### Branch characterizations of `InitializeVt` -/

theorem initVt_parse_fail (st : VtIoState) (env : Env) (i o m : String)
    (h : (ParseIoMode m).1 < 0) :
    st.InitializeVt env i o m =
      (E_INVALIDARG, { st with ioMode := VtIoMode.INVALID }, []) := by
  have hp := parse_fail_eq h
  simp [VtIoState.InitializeVt, hp, e_invalidarg_neg]

theorem initVt_in_fail (st : VtIoState) (env : Env) (i o m : String) (e : Nat)
    (hp : 0 ≤ (ParseIoMode m).1) (hin : env.openIn = OpenOutcome.fail e) :
    st.InitializeVt env i o m =
      (hresultFromWin32 e, { st with ioMode := (ParseIoMode m).2 }, []) := by
  simp [VtIoState.InitializeVt, hin, not_lt.mpr hp]

theorem initVt_out_fail (st : VtIoState) (env : Env) (i o m : String)
    (hIn e : Nat) (hp : 0 ≤ (ParseIoMode m).1)
    (hin : env.openIn = OpenOutcome.ok hIn) (hout : env.openOut = OpenOutcome.fail e) :
    st.InitializeVt env i o m =
      (hresultFromWin32 e, { st with ioMode := (ParseIoMode m).2 },
       [Event.openedIn hIn, Event.closed hIn]) := by
  simp [VtIoState.InitializeVt, hin, hout, not_lt.mpr hp]

theorem initVt_thread_throw (st : VtIoState) (env : Env) (i o m : String)
    (hIn hOut : Nat) (hr : Int) (hp : 0 ≤ (ParseIoMode m).1)
    (hin : env.openIn = OpenOutcome.ok hIn) (hout : env.openOut = OpenOutcome.ok hOut)
    (ht : env.threadCtorThrows = some hr) :
    st.InitializeVt env i o m =
      (hr, { st with ioMode := (ParseIoMode m).2 },
       [Event.openedIn hIn, Event.openedOut hOut,
        Event.closed hOut, Event.closed hIn]) := by
  simp [VtIoState.InitializeVt, hin, hout, ht, not_lt.mpr hp]

theorem initVt_engine_throw (st : VtIoState) (env : Env) (i o m : String)
    (hIn hOut : Nat) (hr : Int) (hp : 0 ≤ (ParseIoMode m).1)
    (hin : env.openIn = OpenOutcome.ok hIn) (hout : env.openOut = OpenOutcome.ok hOut)
    (ht : env.threadCtorThrows = none) (he : env.engineCtorThrows = some hr) :
    st.InitializeVt env i o m =
      (hr, { st with
             ioMode := (ParseIoMode m).2,
             pVtInputThread := some { hInput := hIn, started := false } },
       [Event.openedIn hIn, Event.openedOut hOut, Event.closed hOut]) := by
  obtain hm | hm | hm := parse_ok_mode hp <;>
    simp [VtIoState.InitializeVt, hin, hout, ht, he, hm, not_lt.mpr hp]

theorem initVt_success_x256 (st : VtIoState) (env : Env) (i o m : String)
    (hIn hOut : Nat) (hp : 0 ≤ (ParseIoMode m).1)
    (hin : env.openIn = OpenOutcome.ok hIn) (hout : env.openOut = OpenOutcome.ok hOut)
    (ht : env.threadCtorThrows = none) (he : env.engineCtorThrows = none)
    (hm : (ParseIoMode m).2 = VtIoMode.XTERM_256) :
    st.InitializeVt env i o m =
      (S_OK, { st with
               ioMode := VtIoMode.XTERM_256,
               pVtInputThread := some { hInput := hIn, started := false },
               pVtRenderEngine := some (VtEngine.xterm256 hOut),
               usingVt := true },
       [Event.openedIn hIn, Event.openedOut hOut]) := by
  simp [VtIoState.InitializeVt, hin, hout, ht, he, hm, not_lt.mpr hp]

theorem initVt_success_xterm (st : VtIoState) (env : Env) (i o m : String)
    (hIn hOut : Nat) (hp : 0 ≤ (ParseIoMode m).1)
    (hin : env.openIn = OpenOutcome.ok hIn) (hout : env.openOut = OpenOutcome.ok hOut)
    (ht : env.threadCtorThrows = none) (he : env.engineCtorThrows = none)
    (hm : (ParseIoMode m).2 = VtIoMode.XTERM) :
    st.InitializeVt env i o m =
      (S_OK, { st with
               ioMode := VtIoMode.XTERM,
               pVtInputThread := some { hInput := hIn, started := false },
               pVtRenderEngine :=
                 some (VtEngine.xterm hOut env.colorTable (env.colorTableSize % 0x10000)),
               usingVt := true },
       [Event.openedIn hIn, Event.openedOut hOut]) := by
  simp [VtIoState.InitializeVt, hin, hout, ht, he, hm, not_lt.mpr hp]

theorem initVt_success_wintelnet (st : VtIoState) (env : Env) (i o m : String)
    (hIn hOut : Nat) (hp : 0 ≤ (ParseIoMode m).1)
    (hin : env.openIn = OpenOutcome.ok hIn) (hout : env.openOut = OpenOutcome.ok hOut)
    (ht : env.threadCtorThrows = none) (he : env.engineCtorThrows = none)
    (hm : (ParseIoMode m).2 = VtIoMode.WIN_TELNET) :
    st.InitializeVt env i o m =
      (S_OK, { st with
               ioMode := VtIoMode.WIN_TELNET,
               pVtInputThread := some { hInput := hIn, started := false },
               pVtRenderEngine :=
                 some (VtEngine.winTelnet hOut env.colorTable (env.colorTableSize % 0x10000)),
               usingVt := true },
       [Event.openedIn hIn, Event.openedOut hOut]) := by
  simp [VtIoState.InitializeVt, hin, hout, ht, he, hm, not_lt.mpr hp]

/-! ### Claim theorems -/

/-- C1: `ParseIoMode` is a total, deterministic, side-effect-free function of
the token string: it succeeds with mode `XTERM_256` for both the empty string
and "xterm-256color", with `XTERM` for "xterm", and with `WIN_TELNET` for
"win-telnet"; every other string yields the invalid-argument error
`E_INVALIDARG`.  Matching is exact and case-sensitive with no normalization:
any string differing from the four tokens, including by case only, is
rejected. -/
theorem C1_parse_io_mode_exact_tokens :
    ParseIoMode "" = (S_OK, VtIoMode.XTERM_256) ∧
    ParseIoMode "xterm-256color" = (S_OK, VtIoMode.XTERM_256) ∧
    ParseIoMode "xterm" = (S_OK, VtIoMode.XTERM) ∧
    ParseIoMode "win-telnet" = (S_OK, VtIoMode.WIN_TELNET) ∧
    ∀ s : String, s ≠ "" → s ≠ "xterm-256color" → s ≠ "xterm" → s ≠ "win-telnet" →
      ParseIoMode s = (E_INVALIDARG, VtIoMode.INVALID) := by
  refine ⟨by decide, by decide, by decide, by decide, ?_⟩
  intro s h0 h256 hx hw
  unfold ParseIoMode XTERM_256_STRING XTERM_STRING WIN_TELNET_STRING DEFAULT_STRING
  rw [if_neg h256, if_neg hx, if_neg hw, if_neg h0]

/-- Witness for C1: the case-variant token "XTERM" is not one of the four
tokens and is rejected with `E_INVALIDARG`. -/
theorem C1_parse_io_mode_exact_tokens_witness :
    ParseIoMode "XTERM" = (E_INVALIDARG, VtIoMode.INVALID) :=
  C1_parse_io_mode_exact_tokens.2.2.2.2 "XTERM"
    (by decide) (by decide) (by decide) (by decide)

/-- C9: the defensive `default: return E_FAIL` branch of the engine
construction switch is unreachable when `ParseIoMode` succeeded: a successful
parse always yields one of `XTERM_256`, `XTERM`, `WIN_TELNET`, and an
`Initialize` run that reaches the switch (both opens succeeded, no
constructor throw) after a successful parse returns `S_OK`, never the
`E_FAIL` of the default branch. -/
theorem C9_default_branch_unreachable :
    (∀ s : String, 0 ≤ (ParseIoMode s).1 →
       (ParseIoMode s).2 = VtIoMode.XTERM_256 ∨ (ParseIoMode s).2 = VtIoMode.XTERM ∨
       (ParseIoMode s).2 = VtIoMode.WIN_TELNET) ∧
    (∀ (st : VtIoState) (env : Env) (i o m : String) (hIn hOut : Nat),
       env.openIn = OpenOutcome.ok hIn → env.openOut = OpenOutcome.ok hOut →
       env.threadCtorThrows = none → env.engineCtorThrows = none →
       0 ≤ (ParseIoMode m).1 →
       (st.InitializeVt env i o m).1 = S_OK) := by
  refine ⟨fun s h => parse_ok_mode h, ?_⟩
  intro st env i o m hIn hOut hin hout ht he hp
  obtain hm | hm | hm := parse_ok_mode hp
  · rw [initVt_success_x256 st env i o m hIn hOut hp hin hout ht he hm]
  · rw [initVt_success_xterm st env i o m hIn hOut hp hin hout ht he hm]
  · rw [initVt_success_wintelnet st env i o m hIn hOut hp hin hout ht he hm]

/-- Witness for C9: concrete successful run with token "xterm" returning
`S_OK`. -/
theorem C9_default_branch_unreachable_witness :
    ((ParseIoMode "xterm").2 = VtIoMode.XTERM_256 ∨
     (ParseIoMode "xterm").2 = VtIoMode.XTERM ∨
     (ParseIoMode "xterm").2 = VtIoMode.WIN_TELNET) ∧
    ((VtIoState.new VtIoMode.INVALID).InitializeVt
        { openIn := OpenOutcome.ok 11, openOut := OpenOutcome.ok 12,
          threadCtorThrows := none, engineCtorThrows := none,
          colorTable := [1, 2, 3], colorTableSize := 16 }
        "inpipe" "outpipe" "xterm").1 = S_OK :=
  ⟨C9_default_branch_unreachable.1 "xterm" (by decide),
   C9_default_branch_unreachable.2 (VtIoState.new VtIoMode.INVALID)
     { openIn := OpenOutcome.ok 11, openOut := OpenOutcome.ok 12,
       threadCtorThrows := none, engineCtorThrows := none,
       colorTable := [1, 2, 3], colorTableSize := 16 }
     "inpipe" "outpipe" "xterm" 11 12 rfl rfl rfl rfl (by decide)⟩

/-- C10: a failed `Initialize` still overwrites the stored mode member:
`ParseIoMode` writes through its out parameter unconditionally, so after any
`Initialize` run — successful or not — the member `_IoMode` equals the parse
result; an unrecognized token leaves it `INVALID`, and a recognized token
always leaves the resolved (non-`INVALID`) dialect even if the call later
fails. -/
theorem C10_mode_member_overwritten :
    (∀ (st : VtIoState) (env : Env) (i o m : String),
       ((st.InitializeVt env i o m).2.1).ioMode = (ParseIoMode m).2) ∧
    (∀ s : String, (ParseIoMode s).1 < 0 → (ParseIoMode s).2 = VtIoMode.INVALID) ∧
    (∀ s : String, 0 ≤ (ParseIoMode s).1 → (ParseIoMode s).2 ≠ VtIoMode.INVALID) := by
  refine ⟨?_, ?_, ?_⟩
  · intro st env i o m
    obtain ⟨oIn, oOut, tT, eT, ct, cs⟩ := env
    rcases hpm : ParseIoMode m with ⟨hr, mode⟩
    unfold VtIoState.InitializeVt
    rw [hpm]
    dsimp only
    split_ifs <;>
      cases oIn <;> cases oOut <;> cases tT <;> cases eT <;> cases mode <;> rfl
  · intro s h
    rw [parse_fail_eq h]
  · intro s h
    obtain hm | hm | hm := parse_ok_mode h <;> rw [hm] <;> decide

/-- Witness for C10: with the unrecognized token "bogus" and an input-open
failure environment, the post-state mode member is `INVALID`, and the
recognized token "win-telnet" resolves away from `INVALID`. -/
theorem C10_mode_member_overwritten_witness :
    ((VtIoState.new VtIoMode.XTERM).InitializeVt
        { openIn := OpenOutcome.fail 2, openOut := OpenOutcome.ok 12,
          threadCtorThrows := none, engineCtorThrows := none,
          colorTable := [], colorTableSize := 16 }
        "inpipe" "outpipe" "bogus").2.1.ioMode = (ParseIoMode "bogus").2 ∧
    (ParseIoMode "bogus").2 = VtIoMode.INVALID ∧
    (ParseIoMode "win-telnet").2 ≠ VtIoMode.INVALID :=
  ⟨C10_mode_member_overwritten.1 (VtIoState.new VtIoMode.XTERM)
     { openIn := OpenOutcome.fail 2, openOut := OpenOutcome.ok 12,
       threadCtorThrows := none, engineCtorThrows := none,
       colorTable := [], colorTableSize := 16 }
     "inpipe" "outpipe" "bogus",
   C10_mode_member_overwritten.2.1 "bogus" (by decide),
   C10_mode_member_overwritten.2.2 "win-telnet" (by decide)⟩

/-- C4: `IsUsingVt` is false on a freshly constructed instance, and for a
call starting from an unconfigured instance it becomes true exactly when
`Initialize` succeeds (true iff the returned `HRESULT` is a success code);
`StartIfNeeded` never changes it, whether it succeeds, fails, or is a no-op. -/
theorem C4_is_using_vt_lifecycle :
    (∀ m0 : VtIoMode, (VtIoState.new m0).IsUsingVt = false) ∧
    (∀ (st : VtIoState) (env : Env) (i o m : String), env.WF → st.IsUsingVt = false →
       ((st.InitializeVt env i o m).2.1.IsUsingVt = true ↔
        0 ≤ (st.InitializeVt env i o m).1)) ∧
    (∀ (st : VtIoState) (renv : RenderEnv),
       (st.StartIfNeeded renv).2.1.IsUsingVt = st.IsUsingVt) := by
  refine ⟨fun _ => rfl, ?_, ?_⟩
  · intro st env i o m hwf hst0
    have hst : st.usingVt = false := hst0
    obtain ⟨oIn, oOut, tT, eT, ct, cs⟩ := env
    obtain ⟨w1, w2, w3, w4⟩ := hwf
    rcases lt_or_le (ParseIoMode m).1 0 with hp | hp
    · rw [initVt_parse_fail st _ i o m hp]
      simp [VtIoState.IsUsingVt, hst, not_le.mpr e_invalidarg_neg]
    · cases oIn with
      | fail e =>
        rw [initVt_in_fail st _ i o m e hp rfl]
        simp [VtIoState.IsUsingVt, hst, not_le.mpr (hresultFromWin32_neg w1)]
      | ok hIn =>
        cases oOut with
        | fail e =>
          rw [initVt_out_fail st _ i o m hIn e hp rfl rfl]
          simp [VtIoState.IsUsingVt, hst, not_le.mpr (hresultFromWin32_neg w2)]
        | ok hOut =>
          cases tT with
          | some hrT =>
            rw [initVt_thread_throw st _ i o m hIn hOut hrT hp rfl rfl rfl]
            simp [VtIoState.IsUsingVt, hst, not_le.mpr w3]
          | none =>
            cases eT with
            | some hrE =>
              rw [initVt_engine_throw st _ i o m hIn hOut hrE hp rfl rfl rfl rfl]
              simp [VtIoState.IsUsingVt, hst, not_le.mpr w4]
            | none =>
              obtain hm | hm | hm := parse_ok_mode hp
              · rw [initVt_success_x256 st _ i o m hIn hOut hp rfl rfl rfl rfl hm]
                simp [VtIoState.IsUsingVt, S_OK]
              · rw [initVt_success_xterm st _ i o m hIn hOut hp rfl rfl rfl rfl hm]
                simp [VtIoState.IsUsingVt, S_OK]
              · rw [initVt_success_wintelnet st _ i o m hIn hOut hp rfl rfl rfl rfl hm]
                simp [VtIoState.IsUsingVt, S_OK]
  · intro st renv
    obtain ⟨aE⟩ := renv
    rcases st with ⟨u, mo, thr, eng⟩
    cases u <;> cases aE <;> rfl

/-- Witness for C4: a fresh instance is unconfigured; a concrete successful
run flips `IsUsingVt` in accordance with its `S_OK` result; `StartIfNeeded`
leaves the flag of a fresh instance unchanged. -/
theorem C4_is_using_vt_lifecycle_witness :
    (VtIoState.new VtIoMode.INVALID).IsUsingVt = false ∧
    (((VtIoState.new VtIoMode.INVALID).InitializeVt
        { openIn := OpenOutcome.ok 3, openOut := OpenOutcome.ok 4,
          threadCtorThrows := none, engineCtorThrows := none,
          colorTable := [], colorTableSize := 16 }
        "inpipe" "outpipe" "").2.1.IsUsingVt = true ↔
     0 ≤ ((VtIoState.new VtIoMode.INVALID).InitializeVt
        { openIn := OpenOutcome.ok 3, openOut := OpenOutcome.ok 4,
          threadCtorThrows := none, engineCtorThrows := none,
          colorTable := [], colorTableSize := 16 }
        "inpipe" "outpipe" "").1) ∧
    ((VtIoState.new VtIoMode.INVALID).StartIfNeeded
        { addEngineThrows := none }).2.1.IsUsingVt =
      (VtIoState.new VtIoMode.INVALID).IsUsingVt :=
  ⟨C4_is_using_vt_lifecycle.1 VtIoMode.INVALID,
   C4_is_using_vt_lifecycle.2.1 (VtIoState.new VtIoMode.INVALID)
     { openIn := OpenOutcome.ok 3, openOut := OpenOutcome.ok 4,
       threadCtorThrows := none, engineCtorThrows := none,
       colorTable := [], colorTableSize := 16 }
     "inpipe" "outpipe" "" (by decide) rfl,
   C4_is_using_vt_lifecycle.2.2 (VtIoState.new VtIoMode.INVALID)
     { addEngineThrows := none }⟩

/-- C5: `StartIfNeeded` on an unconfigured instance returns the distinct
"nothing to do" status `S_FALSE` — a success code different from `S_OK` —
with no side effects: the returned state is the input state unchanged and
the side-effect trace is empty (no engine registration, no thread start). -/
theorem C5_start_if_needed_nothing_to_do (st : VtIoState) (renv : RenderEnv)
    (h : st.IsUsingVt = false) :
    st.StartIfNeeded renv = (S_FALSE, st, []) ∧ S_FALSE ≠ S_OK ∧ 0 ≤ S_FALSE := by
  refine ⟨?_, by decide, by decide⟩
  simp [VtIoState.StartIfNeeded, h]

/-- Witness for C5: concrete unconfigured instance. -/
theorem C5_start_if_needed_nothing_to_do_witness :
    (VtIoState.new VtIoMode.INVALID).StartIfNeeded { addEngineThrows := none } =
      (S_FALSE, VtIoState.new VtIoMode.INVALID, []) ∧
    S_FALSE ≠ S_OK ∧ 0 ≤ S_FALSE :=
  C5_start_if_needed_nothing_to_do (VtIoState.new VtIoMode.INVALID)
    { addEngineThrows := none } rfl

/-- C6: on a configured instance, the engine is registered with the renderer
strictly before the decoder is started: if registration throws, the call
returns that error with an empty side-effect trace and an unchanged state
(the decoder's `Start` is never invoked), and on success the trace is
exactly registration followed by thread start. -/
theorem C6_register_before_start (st : VtIoState) (renv : RenderEnv)
    (h : st.IsUsingVt = true) :
    (∀ hr : Int, renv.addEngineThrows = some hr →
       st.StartIfNeeded renv = (hr, st, [])) ∧
    (renv.addEngineThrows = none →
       (st.StartIfNeeded renv).2.2 =
         [StartEvent.registeredEngine st.pVtRenderEngine,
          StartEvent.startedThread]) := by
  constructor
  · intro hr hthrow
    simp [VtIoState.StartIfNeeded, h, hthrow]
  · intro hok
    simp [VtIoState.StartIfNeeded, h, hok]

/-- Witness for C6: concrete configured instance, with a throwing and a
non-throwing renderer. -/
theorem C6_register_before_start_witness :
    VtIoState.StartIfNeeded
        { usingVt := true, ioMode := VtIoMode.XTERM_256,
          pVtInputThread := some { hInput := 5, started := false },
          pVtRenderEngine := some (VtEngine.xterm256 7) }
        { addEngineThrows := some E_FAIL } =
      (E_FAIL,
       { usingVt := true, ioMode := VtIoMode.XTERM_256,
         pVtInputThread := some { hInput := 5, started := false },
         pVtRenderEngine := some (VtEngine.xterm256 7) }, []) ∧
    (VtIoState.StartIfNeeded
        { usingVt := true, ioMode := VtIoMode.XTERM_256,
          pVtInputThread := some { hInput := 5, started := false },
          pVtRenderEngine := some (VtEngine.xterm256 7) }
        { addEngineThrows := none }).2.2 =
      [StartEvent.registeredEngine (some (VtEngine.xterm256 7)),
       StartEvent.startedThread] :=
  ⟨(C6_register_before_start
      { usingVt := true, ioMode := VtIoMode.XTERM_256,
        pVtInputThread := some { hInput := 5, started := false },
        pVtRenderEngine := some (VtEngine.xterm256 7) }
      { addEngineThrows := some E_FAIL } rfl).1 E_FAIL rfl,
   (C6_register_before_start
      { usingVt := true, ioMode := VtIoMode.XTERM_256,
        pVtInputThread := some { hInput := 5, started := false },
        pVtRenderEngine := some (VtEngine.xterm256 7) }
      { addEngineThrows := none } rfl).2 rfl⟩

/-- C3: if the input pipe open succeeds but the output pipe open fails, the
call fails and its handle trace is exactly "input opened, then input closed"
— the already-opened input handle is released before the error return and no
handle leaks; symmetrically, if the input open fails, no output-open event
ever occurs. -/
theorem C3_partial_open_no_leak :
    (∀ (st : VtIoState) (env : Env) (i o m : String) (hIn e : Nat),
       0 ≤ (ParseIoMode m).1 →
       env.openIn = OpenOutcome.ok hIn → env.openOut = OpenOutcome.fail e → e ≠ 0 →
       (st.InitializeVt env i o m).1 < 0 ∧
       (st.InitializeVt env i o m).2.2 = [Event.openedIn hIn, Event.closed hIn]) ∧
    (∀ (st : VtIoState) (env : Env) (i o m : String) (e : Nat),
       env.openIn = OpenOutcome.fail e →
       ∀ h : Nat, Event.openedOut h ∉ (st.InitializeVt env i o m).2.2) := by
  constructor
  · intro st env i o m hIn e hp hin hout hne
    rw [initVt_out_fail st env i o m hIn e hp hin hout]
    exact ⟨hresultFromWin32_neg hne, rfl⟩
  · intro st env i o m e hin h
    rcases lt_or_le (ParseIoMode m).1 0 with hp | hp
    · rw [initVt_parse_fail st env i o m hp]; simp
    · rw [initVt_in_fail st env i o m e hp hin]; simp

/-- Witness for C3: concrete run with input handle 9 and an output open
failing with Win32 error 2, and a concrete run with a failing input open. -/
theorem C3_partial_open_no_leak_witness :
    (((VtIoState.new VtIoMode.INVALID).InitializeVt
        { openIn := OpenOutcome.ok 9, openOut := OpenOutcome.fail 2,
          threadCtorThrows := none, engineCtorThrows := none,
          colorTable := [], colorTableSize := 16 }
        "inpipe" "outpipe" "").1 < 0 ∧
     ((VtIoState.new VtIoMode.INVALID).InitializeVt
        { openIn := OpenOutcome.ok 9, openOut := OpenOutcome.fail 2,
          threadCtorThrows := none, engineCtorThrows := none,
          colorTable := [], colorTableSize := 16 }
        "inpipe" "outpipe" "").2.2 = [Event.openedIn 9, Event.closed 9]) ∧
    Event.openedOut 12 ∉
      ((VtIoState.new VtIoMode.INVALID).InitializeVt
        { openIn := OpenOutcome.fail 3, openOut := OpenOutcome.ok 12,
          threadCtorThrows := none, engineCtorThrows := none,
          colorTable := [], colorTableSize := 16 }
        "inpipe" "outpipe" "").2.2 :=
  ⟨C3_partial_open_no_leak.1 (VtIoState.new VtIoMode.INVALID)
     { openIn := OpenOutcome.ok 9, openOut := OpenOutcome.fail 2,
       threadCtorThrows := none, engineCtorThrows := none,
       colorTable := [], colorTableSize := 16 }
     "inpipe" "outpipe" "" 9 2 (by decide) rfl rfl (by decide),
   C3_partial_open_no_leak.2 (VtIoState.new VtIoMode.INVALID)
     { openIn := OpenOutcome.fail 3, openOut := OpenOutcome.ok 12,
       threadCtorThrows := none, engineCtorThrows := none,
       colorTable := [], colorTableSize := 16 }
     "inpipe" "outpipe" "" 3 rfl 12⟩

/-- C7: `Initialize` short-circuits in the fixed order token resolution,
input open, output open, construction: an unrecognized token returns
`E_INVALIDARG` with an empty handle trace (neither pipe is touched); a
failed input open returns the translated OS error with an empty trace (the
output path is never reached); and whenever any handle event occurs at all,
the first event is the input-pipe open. -/
theorem C7_fixed_order_short_circuit :
    (∀ (st : VtIoState) (env : Env) (i o m : String),
       (ParseIoMode m).1 < 0 →
       st.InitializeVt env i o m =
         (E_INVALIDARG, { st with ioMode := VtIoMode.INVALID }, [])) ∧
    (∀ (st : VtIoState) (env : Env) (i o m : String) (e : Nat),
       0 ≤ (ParseIoMode m).1 → env.openIn = OpenOutcome.fail e →
       st.InitializeVt env i o m =
         (hresultFromWin32 e, { st with ioMode := (ParseIoMode m).2 }, [])) ∧
    (∀ (st : VtIoState) (env : Env) (i o m : String),
       (st.InitializeVt env i o m).2.2 ≠ [] →
       ∃ hIn rest, env.openIn = OpenOutcome.ok hIn ∧
         (st.InitializeVt env i o m).2.2 = Event.openedIn hIn :: rest) := by
  refine ⟨fun st env i o m hp => initVt_parse_fail st env i o m hp,
          fun st env i o m e hp hin => initVt_in_fail st env i o m e hp hin, ?_⟩
  intro st env i o m hne
  obtain ⟨oIn, oOut, tT, eT, ct, cs⟩ := env
  rcases lt_or_le (ParseIoMode m).1 0 with hp | hp
  · rw [initVt_parse_fail st _ i o m hp] at hne
    exact absurd rfl hne
  · cases oIn with
    | fail e =>
      rw [initVt_in_fail st _ i o m e hp rfl] at hne
      exact absurd rfl hne
    | ok hIn =>
      refine ⟨hIn, ?_⟩
      cases oOut with
      | fail e =>
        rw [initVt_out_fail st _ i o m hIn e hp rfl rfl]
        exact ⟨[Event.closed hIn], rfl, rfl⟩
      | ok hOut =>
        cases tT with
        | some hrT =>
          rw [initVt_thread_throw st _ i o m hIn hOut hrT hp rfl rfl rfl]
          exact ⟨[Event.openedOut hOut, Event.closed hOut, Event.closed hIn], rfl, rfl⟩
        | none =>
          cases eT with
          | some hrE =>
            rw [initVt_engine_throw st _ i o m hIn hOut hrE hp rfl rfl rfl rfl]
            exact ⟨[Event.openedOut hOut, Event.closed hOut], rfl, rfl⟩
          | none =>
            obtain hm | hm | hm := parse_ok_mode hp
            · rw [initVt_success_x256 st _ i o m hIn hOut hp rfl rfl rfl rfl hm]
              exact ⟨[Event.openedOut hOut], rfl, rfl⟩
            · rw [initVt_success_xterm st _ i o m hIn hOut hp rfl rfl rfl rfl hm]
              exact ⟨[Event.openedOut hOut], rfl, rfl⟩
            · rw [initVt_success_wintelnet st _ i o m hIn hOut hp rfl rfl rfl rfl hm]
              exact ⟨[Event.openedOut hOut], rfl, rfl⟩

/-- Witness for C7: the bogus token returns `E_INVALIDARG` touching no pipe;
a failed input open stops before the output path; a complete successful run
opens the input pipe first. -/
theorem C7_fixed_order_short_circuit_witness :
    (VtIoState.new VtIoMode.INVALID).InitializeVt
        { openIn := OpenOutcome.ok 11, openOut := OpenOutcome.ok 12,
          threadCtorThrows := none, engineCtorThrows := none,
          colorTable := [], colorTableSize := 16 }
        "inpipe" "outpipe" "bogus" =
      (E_INVALIDARG,
       { VtIoState.new VtIoMode.INVALID with ioMode := VtIoMode.INVALID }, []) ∧
    (VtIoState.new VtIoMode.INVALID).InitializeVt
        { openIn := OpenOutcome.fail 3, openOut := OpenOutcome.ok 12,
          threadCtorThrows := none, engineCtorThrows := none,
          colorTable := [], colorTableSize := 16 }
        "inpipe" "outpipe" "xterm" =
      (hresultFromWin32 3,
       { VtIoState.new VtIoMode.INVALID with ioMode := (ParseIoMode "xterm").2 }, []) ∧
    (∃ hIn rest,
       ({ openIn := OpenOutcome.ok 11, openOut := OpenOutcome.ok 12,
          threadCtorThrows := none, engineCtorThrows := none,
          colorTable := [], colorTableSize := 16 } : Env).openIn = OpenOutcome.ok hIn ∧
       ((VtIoState.new VtIoMode.INVALID).InitializeVt
          { openIn := OpenOutcome.ok 11, openOut := OpenOutcome.ok 12,
            threadCtorThrows := none, engineCtorThrows := none,
            colorTable := [], colorTableSize := 16 }
          "inpipe" "outpipe" "").2.2 = Event.openedIn hIn :: rest) :=
  ⟨C7_fixed_order_short_circuit.1 (VtIoState.new VtIoMode.INVALID)
     { openIn := OpenOutcome.ok 11, openOut := OpenOutcome.ok 12,
       threadCtorThrows := none, engineCtorThrows := none,
       colorTable := [], colorTableSize := 16 }
     "inpipe" "outpipe" "bogus" (by decide),
   C7_fixed_order_short_circuit.2.1 (VtIoState.new VtIoMode.INVALID)
     { openIn := OpenOutcome.fail 3, openOut := OpenOutcome.ok 12,
       threadCtorThrows := none, engineCtorThrows := none,
       colorTable := [], colorTableSize := 16 }
     "inpipe" "outpipe" "xterm" 3 (by decide) rfl,
   C7_fixed_order_short_circuit.2.2 (VtIoState.new VtIoMode.INVALID)
     { openIn := OpenOutcome.ok 11, openOut := OpenOutcome.ok 12,
       threadCtorThrows := none, engineCtorThrows := none,
       colorTable := [], colorTableSize := 16 }
     "inpipe" "outpipe" "" (by decide)⟩

/-- C8: on a fully successful run the dialect-to-engine mapping is pure and
deterministic in the resolved mode: `XTERM_256` yields `Xterm256Engine`
built from the output handle alone, `XTERM` yields `XtermEngine` and
`WIN_TELNET` yields `WinTelnetEngine`, each built from the output handle
plus the console color table and its `WORD`-truncated size; the input
handle's ownership ends inside the constructed decoder, the output handle's
inside the engine, and no handle is closed during the call. -/
theorem C8_dialect_engine_mapping (st : VtIoState) (env : Env) (i o m : String)
    (hIn hOut : Nat)
    (hin : env.openIn = OpenOutcome.ok hIn) (hout : env.openOut = OpenOutcome.ok hOut)
    (ht : env.threadCtorThrows = none) (he : env.engineCtorThrows = none)
    (hp : 0 ≤ (ParseIoMode m).1) :
    ((ParseIoMode m).2 = VtIoMode.XTERM_256 →
       (st.InitializeVt env i o m).2.1.pVtRenderEngine =
         some (VtEngine.xterm256 hOut)) ∧
    ((ParseIoMode m).2 = VtIoMode.XTERM →
       (st.InitializeVt env i o m).2.1.pVtRenderEngine =
         some (VtEngine.xterm hOut env.colorTable (env.colorTableSize % 0x10000))) ∧
    ((ParseIoMode m).2 = VtIoMode.WIN_TELNET →
       (st.InitializeVt env i o m).2.1.pVtRenderEngine =
         some (VtEngine.winTelnet hOut env.colorTable (env.colorTableSize % 0x10000))) ∧
    (st.InitializeVt env i o m).2.1.pVtInputThread =
      some { hInput := hIn, started := false } ∧
    closesOf (st.InitializeVt env i o m).2.2 = [] := by
  refine ⟨?_, ?_, ?_, ?_, ?_⟩
  · intro hm
    rw [initVt_success_x256 st env i o m hIn hOut hp hin hout ht he hm]
  · intro hm
    rw [initVt_success_xterm st env i o m hIn hOut hp hin hout ht he hm]
  · intro hm
    rw [initVt_success_wintelnet st env i o m hIn hOut hp hin hout ht he hm]
  · obtain hm | hm | hm := parse_ok_mode hp
    · rw [initVt_success_x256 st env i o m hIn hOut hp hin hout ht he hm]
    · rw [initVt_success_xterm st env i o m hIn hOut hp hin hout ht he hm]
    · rw [initVt_success_wintelnet st env i o m hIn hOut hp hin hout ht he hm]
  · obtain hm | hm | hm := parse_ok_mode hp
    · rw [initVt_success_x256 st env i o m hIn hOut hp hin hout ht he hm]; rfl
    · rw [initVt_success_xterm st env i o m hIn hOut hp hin hout ht he hm]; rfl
    · rw [initVt_success_wintelnet st env i o m hIn hOut hp hin hout ht he hm]; rfl

/-- Witness for C8: token "xterm" with concrete handles 11/12 and a concrete
color table yields the `XtermEngine` variant holding the output handle and
the table, with the decoder holding the input handle and nothing closed. -/
theorem C8_dialect_engine_mapping_witness :
    ((VtIoState.new VtIoMode.INVALID).InitializeVt
        { openIn := OpenOutcome.ok 11, openOut := OpenOutcome.ok 12,
          threadCtorThrows := none, engineCtorThrows := none,
          colorTable := [10, 20], colorTableSize := 16 }
        "inpipe" "outpipe" "xterm").2.1.pVtRenderEngine =
      some (VtEngine.xterm 12 [10, 20] (16 % 0x10000)) ∧
    ((VtIoState.new VtIoMode.INVALID).InitializeVt
        { openIn := OpenOutcome.ok 11, openOut := OpenOutcome.ok 12,
          threadCtorThrows := none, engineCtorThrows := none,
          colorTable := [10, 20], colorTableSize := 16 }
        "inpipe" "outpipe" "xterm").2.1.pVtInputThread =
      some { hInput := 11, started := false } ∧
    closesOf ((VtIoState.new VtIoMode.INVALID).InitializeVt
        { openIn := OpenOutcome.ok 11, openOut := OpenOutcome.ok 12,
          threadCtorThrows := none, engineCtorThrows := none,
          colorTable := [10, 20], colorTableSize := 16 }
        "inpipe" "outpipe" "xterm").2.2 = [] :=
  ⟨(C8_dialect_engine_mapping (VtIoState.new VtIoMode.INVALID)
      { openIn := OpenOutcome.ok 11, openOut := OpenOutcome.ok 12,
        threadCtorThrows := none, engineCtorThrows := none,
        colorTable := [10, 20], colorTableSize := 16 }
      "inpipe" "outpipe" "xterm" 11 12 rfl rfl rfl rfl (by decide)).2.1 (by decide),
   (C8_dialect_engine_mapping (VtIoState.new VtIoMode.INVALID)
      { openIn := OpenOutcome.ok 11, openOut := OpenOutcome.ok 12,
        threadCtorThrows := none, engineCtorThrows := none,
        colorTable := [10, 20], colorTableSize := 16 }
      "inpipe" "outpipe" "xterm" 11 12 rfl rfl rfl rfl (by decide)).2.2.2.1,
   (C8_dialect_engine_mapping (VtIoState.new VtIoMode.INVALID)
      { openIn := OpenOutcome.ok 11, openOut := OpenOutcome.ok 12,
        threadCtorThrows := none, engineCtorThrows := none,
        colorTable := [10, 20], colorTableSize := 16 }
      "inpipe" "outpipe" "xterm" 11 12 rfl rfl rfl rfl (by decide)).2.2.2.2⟩

/-- C2 counterexample: with the recognized token "xterm", both pipe opens
succeeding (input handle 5, output handle 7) and the engine constructor
throwing (`E_OUTOFMEMORY`), `Initialize` fails — yet handle 5, opened during
the attempt, is never closed: the constructed decoder holding it stays in
the `_pVtInputThread` member, so not every acquired resource is released and
the open-handle count does not return to its pre-call value. -/
theorem C2_counterexample_engine_ctor_leak :
    let env0 : Env :=
      { openIn := OpenOutcome.ok 5, openOut := OpenOutcome.ok 7,
        threadCtorThrows := none,
        engineCtorThrows := some (0x8007000E - 0x100000000),
        colorTable := [], colorTableSize := 16 }
    let r := (VtIoState.new VtIoMode.INVALID).InitializeVt env0 "inpipe" "outpipe" "xterm"
    env0.WF ∧ r.1 < 0 ∧ r.2.1.usingVt = false ∧
    5 ∈ opensOf r.2.2 ∧ 5 ∉ closesOf r.2.2 ∧
    r.2.1.pVtInputThread = some { hInput := 5, started := false } := by
  decide

/-- C2 (amended): for every well-formed failure injection, a failed
`Initialize` leaves the activation flag unchanged (`NotConfigured` stays
`NotConfigured`), and every handle opened during the attempt is either
closed again or held by the decoder retained in the `_pVtInputThread`
member; full release of everything — handle count back to the pre-call
value — holds at the token-resolution, input-open, output-open and
decoder-construction failure points, i.e. whenever the failure is not an
engine-construction throw. -/
theorem C2_failed_initialize_cleanup (st : VtIoState) (env : Env) (i o m : String)
    (hwf : env.WF) (hfail : (st.InitializeVt env i o m).1 < 0) :
    (st.InitializeVt env i o m).2.1.usingVt = st.usingVt ∧
    (∀ h : Nat, h ∈ opensOf (st.InitializeVt env i o m).2.2 →
       h ∈ closesOf (st.InitializeVt env i o m).2.2 ∨
       (st.InitializeVt env i o m).2.1.pVtInputThread =
         some { hInput := h, started := false }) ∧
    (env.engineCtorThrows = none →
       ∀ h : Nat, h ∈ opensOf (st.InitializeVt env i o m).2.2 →
         h ∈ closesOf (st.InitializeVt env i o m).2.2) := by
  obtain ⟨oIn, oOut, tT, eT, ct, cs⟩ := env
  obtain ⟨w1, w2, w3, w4⟩ := hwf
  rcases lt_or_le (ParseIoMode m).1 0 with hp | hp
  · rw [initVt_parse_fail st _ i o m hp] at hfail ⊢
    exact ⟨rfl, fun h hh => absurd hh (by simp [opensOf]),
           fun _ h hh => absurd hh (by simp [opensOf])⟩
  · cases oIn with
    | fail e =>
      rw [initVt_in_fail st _ i o m e hp rfl] at hfail ⊢
      exact ⟨rfl, fun h hh => absurd hh (by simp [opensOf]),
             fun _ h hh => absurd hh (by simp [opensOf])⟩
    | ok hIn =>
      cases oOut with
      | fail e =>
        rw [initVt_out_fail st _ i o m hIn e hp rfl rfl] at hfail ⊢
        refine ⟨rfl, ?_, ?_⟩
        · intro h hh
          simp only [opensOf, closesOf, List.mem_singleton] at hh ⊢
          exact Or.inl hh
        · intro _ h hh
          simp only [opensOf, closesOf, List.mem_singleton] at hh ⊢
          exact hh
      | ok hOut =>
        cases tT with
        | some hrT =>
          rw [initVt_thread_throw st _ i o m hIn hOut hrT hp rfl rfl rfl] at hfail ⊢
          refine ⟨rfl, ?_, ?_⟩
          · intro h hh
            simp only [opensOf, List.mem_cons, List.not_mem_nil, or_false] at hh
            rcases hh with rfl | rfl
            · exact Or.inl (by simp [closesOf])
            · exact Or.inl (by simp [closesOf])
          · intro _ h hh
            simp only [opensOf, List.mem_cons, List.not_mem_nil, or_false] at hh
            rcases hh with rfl | rfl <;> simp [closesOf]
        | none =>
          cases eT with
          | some hrE =>
            rw [initVt_engine_throw st _ i o m hIn hOut hrE hp rfl rfl rfl rfl] at hfail ⊢
            refine ⟨rfl, ?_, ?_⟩
            · intro h hh
              simp only [opensOf, List.mem_cons, List.not_mem_nil, or_false] at hh
              rcases hh with rfl | rfl
              · exact Or.inr rfl
              · exact Or.inl (by simp [closesOf])
            · intro hc
              exact absurd hc (by simp)
          | none =>
            obtain hm | hm | hm := parse_ok_mode hp
            · rw [initVt_success_x256 st _ i o m hIn hOut hp rfl rfl rfl rfl hm] at hfail
              simp [S_OK] at hfail
            · rw [initVt_success_xterm st _ i o m hIn hOut hp rfl rfl rfl rfl hm] at hfail
              simp [S_OK] at hfail
            · rw [initVt_success_wintelnet st _ i o m hIn hOut hp rfl rfl rfl rfl hm] at hfail
              simp [S_OK] at hfail

/-- Witness for C2 (amended): a concrete failed run (output open fails with
Win32 error 2 after input handle 9 was opened) leaves the flag unchanged and
closes every opened handle. -/
theorem C2_failed_initialize_cleanup_witness :
    ((VtIoState.new VtIoMode.INVALID).InitializeVt
        { openIn := OpenOutcome.ok 9, openOut := OpenOutcome.fail 2,
          threadCtorThrows := none, engineCtorThrows := none,
          colorTable := [], colorTableSize := 16 }
        "inpipe" "outpipe" "").2.1.usingVt = (VtIoState.new VtIoMode.INVALID).usingVt ∧
    (∀ h : Nat, h ∈ opensOf ((VtIoState.new VtIoMode.INVALID).InitializeVt
        { openIn := OpenOutcome.ok 9, openOut := OpenOutcome.fail 2,
          threadCtorThrows := none, engineCtorThrows := none,
          colorTable := [], colorTableSize := 16 }
        "inpipe" "outpipe" "").2.2 →
       h ∈ closesOf ((VtIoState.new VtIoMode.INVALID).InitializeVt
        { openIn := OpenOutcome.ok 9, openOut := OpenOutcome.fail 2,
          threadCtorThrows := none, engineCtorThrows := none,
          colorTable := [], colorTableSize := 16 }
        "inpipe" "outpipe" "").2.2 ∨
       ((VtIoState.new VtIoMode.INVALID).InitializeVt
        { openIn := OpenOutcome.ok 9, openOut := OpenOutcome.fail 2,
          threadCtorThrows := none, engineCtorThrows := none,
          colorTable := [], colorTableSize := 16 }
        "inpipe" "outpipe" "").2.1.pVtInputThread =
         some { hInput := h, started := false }) :=
  ⟨(C2_failed_initialize_cleanup (VtIoState.new VtIoMode.INVALID)
      { openIn := OpenOutcome.ok 9, openOut := OpenOutcome.fail 2,
        threadCtorThrows := none, engineCtorThrows := none,
        colorTable := [], colorTableSize := 16 }
      "inpipe" "outpipe" "" (by decide) (by decide)).1,
   (C2_failed_initialize_cleanup (VtIoState.new VtIoMode.INVALID)
      { openIn := OpenOutcome.ok 9, openOut := OpenOutcome.fail 2,
        threadCtorThrows := none, engineCtorThrows := none,
        colorTable := [], colorTableSize := 16 }
      "inpipe" "outpipe" "" (by decide) (by decide)).2.1⟩
